import Mathlib

set_option autoImplicit false

/-!
Verification development for the BookBase file-channel protocol.

The repository coordinates a primary application (`bookbase.py`) with worker
processes (`data_counter.py`, `text_formatter.py`) through shared text files:
each service has a request file and a response file.  This file embeds the
caller functions, the worker loops and the handlers shallowly in Lean.

Modelling conventions:
- A slot (text file) holds a `Msg`: `Msg.empty` stands for an absent file or
  one whose content is empty after `strip()`; `Msg.json v` stands for the
  serialization `json.dumps` of the JSON value `v` (always non-empty and
  parsed back to `v` by `json.loads`); `Msg.malformed s` stands for content
  that is non-empty after `strip()` and fails `json.loads`.
- JSON values are the inductive `Json`; numbers are integers (the only
  numbers these exchanges carry are counts and lengths).  JSON objects are
  association lists with the keys distinct, as produced by `json.loads`.
- Python runtime errors are modelled with `Except String`: an `Except.error`
  is an exception carrying the message `str(e)`.
- Time: one `time.sleep(0.1)` makes 0.1 s elapse and nothing else takes
  time, as the temporal claims of the spec stipulate.  The environment (a
  worker) may overwrite the response slot during each sleep.
-/

/-- JSON values, as returned by `json.loads`.  Numbers are restricted to
integers, which covers every number exchanged by this repository. -/
inductive Json where
  | null
  | bool (b : Bool)
  | num (n : Int)
  | str (s : String)
  | arr (xs : List Json)
  | obj (kvs : List (String × Json))

/-- Content of one slot (one text file), abstracted over serialization:
empty after strip, valid JSON, or non-empty unparseable text. -/
inductive Msg where
  | empty
  | malformed (s : String)
  | json (v : Json)

/-- State of one channel: the request file and the response file. -/
structure ChanState where
  req : Msg
  resp : Msg

/-- Python truthiness of a JSON-decoded value (`if request:`). -/
def pyTruthy : Json → Bool
  | .null => false
  | .bool b => b
  | .num n => n != 0
  | .str s => s != ""
  | .arr xs => !xs.isEmpty
  | .obj kvs => !kvs.isEmpty

/-- Python type name of a JSON-decoded value, used in exception messages. -/
def pyTypeName : Json → String
  | .null => "NoneType"
  | .bool _ => "bool"
  | .num _ => "int"
  | .str _ => "str"
  | .arr _ => "list"
  | .obj _ => "dict"

mutual

/-- Python `repr` of a JSON-decoded value (ASCII fragment). -/
def pyRepr : Json → String
  | .null => "None"
  | .bool true => "True"
  | .bool false => "False"
  | .num n => toString n
  | .str s => "\x27" ++ s ++ "\x27"
  | .arr xs => "[" ++ pyReprSeq xs ++ "]"
  | .obj kvs => "\x7b" ++ pyReprPairs kvs ++ "\x7d"

/-- Comma-separated `repr` of list elements. -/
def pyReprSeq : List Json → String
  | [] => ""
  | [x] => pyRepr x
  | x :: y :: rest => pyRepr x ++ ", " ++ pyReprSeq (y :: rest)

/-- Comma-separated `repr` of dict entries. -/
def pyReprPairs : List (String × Json) → String
  | [] => ""
  | [(k, v)] => "\x27" ++ k ++ "\x27: " ++ pyRepr v
  | (k, v) :: kv :: rest =>
      "\x27" ++ k ++ "\x27: " ++ pyRepr v ++ ", " ++ pyReprPairs (kv :: rest)

end

/-- Python `str` of a JSON-decoded value: a string is returned unquoted, any
other value prints as its `repr`. -/
def pyStr : Json → String
  | .str s => s
  | v => pyRepr v

/-- Substring test, for Python `needle in s` on strings. -/
def strContains (s needle : String) : Bool :=
  (needle == "") || (s.splitOn needle).length ≥ 2

/-- Lookup by key in an association list, Python dict access (keys are
distinct, so the first match is the only one). -/
def alistGet {α : Type} : List (String × α) → String → Option α
  | [], _ => none
  | (k, v) :: es, s => if k = s then some v else alistGet es s

/-- Python membership `needle in v` for a decoded JSON value: key lookup on
dicts, element comparison on lists, substring test on strings, and a
`TypeError` on the non-iterable types. -/
def pyContains (needle : String) : Json → Except String Bool
  | .obj kvs => .ok (kvs.any (fun kv => kv.1 == needle))
  | .arr xs => .ok (xs.any (fun x => match x with | .str s => s == needle | _ => false))
  | .str s => .ok (strContains s needle)
  | v => .error ("argument of type \x27" ++ pyTypeName v ++ "\x27 is not iterable")

/-- Python subscription `v[key]` with a string key. -/
def pySubscript : Json → String → Except String Json
  | .obj kvs, key =>
      match alistGet kvs key with
      | some v => .ok v
      | none => .error ("KeyError: \x27" ++ key ++ "\x27")
  | .str _, _ => .error "string indices must be integers"
  | .arr _, _ => .error "list indices must be integers or slices, not str"
  | v, _ => .error ("\x27" ++ pyTypeName v ++ "\x27 object is not subscriptable")

/-- Python `v.get(key, default)`: dict lookup with default, `AttributeError`
on every non-dict value. -/
def pyGet (v : Json) (key : String) (dflt : Json) : Except String Json :=
  match v with
  | .obj kvs => .ok ((alistGet kvs key).getD dflt)
  | _ => .error ("\x27" ++ pyTypeName v ++ "\x27 object has no attribute \x27get\x27")

/-- ASCII lowercasing, Python `str.lower` on the ASCII fragment. -/
def pyLowerStr (s : String) : String := ⟨s.data.map Char.toLower⟩

/-- ASCII uppercasing, Python `str.upper` on the ASCII fragment. -/
def pyUpperStr (s : String) : String := ⟨s.data.map Char.toUpper⟩

/-- Python `v.lower()`: succeeds on strings, `AttributeError` otherwise. -/
def pyLower : Json → Except String String
  | .str s => .ok (pyLowerStr s)
  | v => .error ("\x27" ++ pyTypeName v ++ "\x27 object has no attribute \x27lower\x27")

/-- Python `len(v)` for decoded JSON values. -/
def pyLen : Json → Except String Int
  | .str s => .ok s.length
  | .arr xs => .ok xs.length
  | .obj kvs => .ok kvs.length
  | v => .error ("object of type \x27" ++ pyTypeName v ++ "\x27 has no len()")

/-- Python whitespace class, the characters matched by the regex `\s`. -/
def pyIsSpace (c : Char) : Bool :=
  c == ' ' || c == '\t' || c == '\n' || c == '\x0d' || c == '\x0b' || c == '\x0c'

/-- Python `str.strip()` on the ASCII fragment: drop whitespace from both
ends. -/
def pyStrip (s : String) : String :=
  ⟨((s.data.dropWhile pyIsSpace).reverse.dropWhile pyIsSpace).reverse⟩

/-!
Caller side, `bookbase.py`.  Each of `call_rng_service`, `call_text_formatter`
and `call_data_counter` clears the response file, writes the serialized
request, then polls the response file every 0.1 s until its stripped content
is non-empty (returning the parsed value, or a fixed error dict when parsing
fails) or until `time.time() - start < timeout` fails, returning a fixed
timeout error dict.  `call_words_service` does the same over raw text files
`input.txt` / `output.csv`, clearing `output.csv` only when it exists.

The environment is a function `writes : Nat → Option Msg` giving the value a
worker writes into the response slot during the sleep of poll tick `t`
(ticks are numbered from 1), or `none` when it does not write.
-/

/-- Result of one caller exchange: the returned value, the number of 0.1 s
poll ticks that elapsed before returning, and the final channel state. -/
structure CallResult where
  value : Json
  ticks : Nat
  final : ChanState

/-- Apply one possible environment write to the response slot. -/
def respWrite (w : Option Msg) (s : ChanState) : ChanState :=
  match w with
  | none => s
  | some m => { s with resp := m }

/-- Poll loop of the three JSON callers: at each of the remaining `k` ticks,
sleep one interval (during which the environment may write), read the
response file, and return on non-empty content; parse failure returns the
caller's fixed parse-error dict.  Exhausting the ticks returns the caller's
fixed timeout dict, exactly as the `while time.time() - start < timeout`
loop of `bookbase.py`. -/
def pollLoop (errParse errTimeout : Json) (writes : Nat → Option Msg) :
    Nat → Nat → ChanState → CallResult
  | 0, t, s => ⟨errTimeout, t, s⟩
  | k + 1, t, s =>
      let s2 := respWrite (writes (t + 1)) s
      match s2.resp with
      | .empty => pollLoop errParse errTimeout writes k (t + 1) s2
      | .malformed _ => ⟨errParse, t + 1, s2⟩
      | .json v => ⟨v, t + 1, s2⟩

/-- Number of iterations of the polling loop before the guard
`time.time() - start < timeout` fails, with 0.1 s elapsing per sleep:
the least `k` with `k * 0.1 ≥ T`. -/
def numPolls (T : ℚ) : Nat := (⌈(10 : ℚ) * T⌉).toNat

/-- Seconds elapsed after `n` poll ticks of 0.1 s. -/
def secondsOf (n : Nat) : ℚ := n * (1 / 10)

/-- Clearing the response file (`response_file.write_text("")`). -/
def clearRespStep (s : ChanState) : ChanState := { s with resp := .empty }

/-- Writing the request file (`request_file.write_text(json.dumps(...))`). -/
def writeReqStep (m : Msg) (s : ChanState) : ChanState := { s with req := m }

/-- Shared caller shape of the three JSON exchanges in `bookbase.py`: clear
the response slot, then write the request, then poll. -/
def call_service (errParse errTimeout : Json) (request : Json)
    (writes : Nat → Option Msg) (T : ℚ) (s0 : ChanState) : CallResult :=
  pollLoop errParse errTimeout writes (numPolls T) 0
    (writeReqStep (.json request) (clearRespStep s0))

/-- Timeout dict of `call_rng_service`. -/
def rngTimeoutEnv : Json :=
  .obj [("status", .str "error"), ("message", .str "Microservice timeout")]

/-- Parse-error dict of `call_rng_service`. -/
def rngParseErrEnv : Json :=
  .obj [("status", .str "error"), ("message", .str "Invalid JSON response")]

/-- Timeout dict of `call_text_formatter` and `call_data_counter`. -/
def svcTimeoutEnv : Json :=
  .obj [("success", .bool false), ("error", .str "Microservice timeout")]

/-- Parse-error dict of `call_text_formatter` and `call_data_counter`. -/
def svcParseErrEnv : Json :=
  .obj [("success", .bool false), ("error", .str "Invalid JSON response")]

/-- Embedding of `call_rng_service` from `bookbase.py`. -/
def call_rng_service (request_data : Json) (writes : Nat → Option Msg)
    (T : ℚ) (s0 : ChanState) : CallResult :=
  call_service rngParseErrEnv rngTimeoutEnv request_data writes T s0

/-- Embedding of `call_text_formatter` from `bookbase.py`. -/
def call_text_formatter (text format_type : String) (writes : Nat → Option Msg)
    (T : ℚ) (s0 : ChanState) : CallResult :=
  call_service svcParseErrEnv svcTimeoutEnv
    (.obj [("text", .str text), ("format", .str format_type)]) writes T s0

/-- Embedding of `call_data_counter` from `bookbase.py`. -/
def call_data_counter (items : List Json) (writes : Nat → Option Msg)
    (T : ℚ) (s0 : ChanState) : CallResult :=
  call_service svcParseErrEnv svcTimeoutEnv
    (.obj [("mode", .str "count"), ("data", .arr items)]) writes T s0

/-!
Embedding of `call_words_service`: raw-text channel `input.txt` (request) and
`output.csv` (response).  A file is `Option String`, `none` when absent.
-/

/-- State of the words channel: the input file and the output file, `none`
when the file does not exist. -/
structure WordsState where
  input : Option String
  output : Option String

/-- Result of one words-service exchange. -/
structure WordsResult where
  value : String
  ticks : Nat
  final : WordsState

/-- Apply one possible environment write to `output.csv` (writing creates
the file). -/
def outWrite (w : Option String) (s : WordsState) : WordsState :=
  match w with
  | none => s
  | some c => { s with output := some c }

/-- Poll loop of `call_words_service`: return the stripped content of
`output.csv` once the file exists and that content is non-empty; return `""`
when the ticks are exhausted. -/
def wordsPoll (writes : Nat → Option String) :
    Nat → Nat → WordsState → WordsResult
  | 0, t, s => ⟨"", t, s⟩
  | k + 1, t, s =>
      let s2 := outWrite (writes (t + 1)) s
      match s2.output with
      | none => wordsPoll writes k (t + 1) s2
      | some c =>
          if pyStrip c == "" then wordsPoll writes k (t + 1) s2
          else ⟨pyStrip c, t + 1, s2⟩

/-- Clearing `output.csv`, performed only when the file exists. -/
def clearOutputStep (s : WordsState) : WordsState :=
  { s with output := s.output.map (fun _ => "") }

/-- Writing `input.txt`. -/
def writeInputStep (text : String) (s : WordsState) : WordsState :=
  { s with input := some text }

/-- Embedding of `call_words_service` from `bookbase.py`. -/
def call_words_service (text : String) (writes : Nat → Option String)
    (T : ℚ) (s0 : WordsState) : WordsResult :=
  wordsPoll writes (numPolls T) 0 (writeInputStep text (clearOutputStep s0))

/-!
Worker side, `data_counter.py`.
-/

/-- Error envelope of the data counter, `{"success": False, "error": e}`. -/
def dc_errEnv (e : String) : Json :=
  .obj [("success", .bool false), ("error", .str e)]

/-- One step of the `Counter` tally: bump the count of `x` when present,
append `(x, 1)` otherwise (insertion order, as Python dicts preserve it). -/
def tallyStep (acc : List (String × Nat)) (x : String) : List (String × Nat) :=
  match alistGet acc x with
  | some _ => acc.map (fun p => if p.1 = x then (p.1, p.2 + 1) else p)
  | none => acc ++ [(x, 1)]

/-- Embedding of `dict(Counter(xs))`: frequency table in first-occurrence
order. -/
def tally (xs : List String) : List (String × Nat) := xs.foldl tallyStep []

/-- Embedding of `count_items` from `data_counter.py`.  The `isinstance`
guard of the source cannot fire here because every call site has already
checked that the data is a list. -/
def count_items (items : List Json) : Json :=
  let str_items := items.map pyStr
  let item_counts := tally str_items
  .obj [("success", .bool true),
        ("total_count", .num str_items.length),
        ("unique_count", .num item_counts.length),
        ("item_counts", .obj (item_counts.map (fun p => (p.1, Json.num (p.2 : Int))))),
        ("error", .str "")]

/-- Embedding of `get_text_stats` from `data_counter.py`. -/
def get_text_stats (text : Json) : Json :=
  let t := match text with | .null => "" | v => pyStr v
  let words := (t.split pyIsSpace).filter (fun w => !w.isEmpty)
  .obj [("success", .bool true),
        ("character_count", .num (t.length : Int)),
        ("word_count", .num (words.length : Int)),
        ("error", .str "")]

/-- Body of the `try` block of `process_request` in `data_counter.py`; an
`Except.error` is an exception reaching the `except` clause. -/
def dc_process_body (request_data : Json) : Except String Json :=
  match pyGet request_data "mode" (.str "") with
  | .error e => .error e
  | .ok m =>
    match pyLower m with
    | .error e => .error e
    | .ok mode =>
      match pyGet request_data "data" .null with
      | .error e => .error e
      | .ok data =>
        if mode == "" then
          .ok (dc_errEnv "Missing \x27mode\x27 field. Use \x27count\x27 or \x27stats\x27.")
        else if mode == "count" then
          match data with
          | .null => .ok (dc_errEnv "Missing \x27data\x27 field. Provide a list of items.")
          | .arr items => .ok (count_items items)
          | _ => .ok (dc_errEnv "\x27data\x27 must be a list of items for \x27count\x27 mode.")
        else if mode == "stats" then
          .ok (get_text_stats (match data with | .null => .str "" | v => v))
        else
          .ok (dc_errEnv ("Invalid mode \x27" ++ mode ++ "\x27. Use \x27count\x27 or \x27stats\x27."))

/-- Embedding of `process_request` from `data_counter.py`: the body with its
`except Exception` clause turning any exception into an error envelope. -/
def dc_process_request (request_data : Json) : Json :=
  match dc_process_body request_data with
  | .ok r => r
  | .error e => dc_errEnv e

/-- Embedding of `read_request` from `data_counter.py`: given the request
slot content, return the new slot content and the value handed to the loop
(`none` models Python `None`).  Non-empty content is cleared before being
returned; unparseable content is cleared and replaced by the sentinel dict. -/
def dc_read_request : Msg → Msg × Option Json
  | .empty => (.empty, none)
  | .malformed _ =>
      (.empty, some (.obj [("_parse_error", .str "Invalid JSON in request file")]))
  | .json v => (.empty, some v)

/-- Response built by `main` of `data_counter.py` for the parse-error
sentinel: `{"success": False, "error": request["_parse_error"]}`. -/
def dc_parse_error_response (request : Json) : Except String Json :=
  match pySubscript request "_parse_error" with
  | .error e => .error e
  | .ok msg => .ok (.obj [("success", .bool false), ("error", msg)])

/-- One iteration of the `while True` loop of `main` in `data_counter.py`
(the `print` calls and the sleep have no effect on the channel).  An
`Except.error` is an exception not caught by `except KeyboardInterrupt`,
which terminates the worker. -/
def dc_loop_body (s : ChanState) : Except String ChanState :=
  match dc_read_request s.req with
  | (req2, none) => .ok { s with req := req2 }
  | (req2, some request) =>
    if pyTruthy request then
      match pyContains "_parse_error" request with
      | .error e => .error e
      | .ok true =>
          match dc_parse_error_response request with
          | .error e => .error e
          | .ok response => .ok { req := req2, resp := .json response }
      | .ok false => .ok { req := req2, resp := .json (dc_process_request request) }
    else .ok { s with req := req2 }

/-!
Worker side, `text_formatter.py`.
-/

/-- Error envelope of the text formatter,
`{"success": False, "result": "", "error": e}`. -/
def tf_errEnv (e : String) : Json :=
  .obj [("success", .bool false), ("result", .str ""), ("error", .str e)]

/-- Characters kept by the `clean` format: the complement of the regex
`[^a-zA-Z0-9\s]` in `format_text`. -/
def pyIsClean (c : Char) : Bool :=
  (('a' ≤ c && c ≤ 'z') || ('A' ≤ c && c ≤ 'Z') || ('0' ≤ c && c ≤ '9')) || pyIsSpace c

/-- Python `str.title`: uppercase every alphabetic character that follows a
non-alphabetic one, lowercase the other alphabetic characters. -/
def pyTitleAux : Bool → List Char → List Char
  | _, [] => []
  | prevAlpha, c :: cs =>
      if c.isAlpha then
        (if prevAlpha then c.toLower else c.toUpper) :: pyTitleAux true cs
      else
        c :: pyTitleAux false cs

/-- Python `text.title()` on the ASCII fragment. -/
def pyTitle (s : String) : String := ⟨pyTitleAux false s.data⟩

/-- Embedding of `re.sub(r\x27[^a-zA-Z0-9\s]\x27, \x27\x27, text)`: deleting every
match of a single-character class is filtering the kept characters. -/
def pyClean (s : String) : String := ⟨s.data.filter pyIsClean⟩

/-- Embedding of `format_text` from `text_formatter.py`; the `ValueError` of
the final branch is an `Except.error`. -/
def format_text (text : String) (format_type : String) : Except String String :=
  if format_type == "upper" then .ok (pyUpperStr text)
  else if format_type == "lower" then .ok (pyLowerStr text)
  else if format_type == "title" then .ok (pyTitle text)
  else if format_type == "clean" then .ok (pyClean text)
  else .error ("Unknown format type: " ++ format_type)

/-- Body of the `try` block of `process_request` in `text_formatter.py`. -/
def tf_process_body (request_data : Json) : Except String Json :=
  match pyGet request_data "text" (.str "") with
  | .error e => .error e
  | .ok text =>
    match pyGet request_data "format" (.str "") with
    | .error e => .error e
    | .ok f =>
      match pyLower f with
      | .error e => .error e
      | .ok format_type =>
        if format_type == "" then
          .ok (tf_errEnv "Missing \x27format\x27 field. Use \x27upper\x27, \x27lower\x27, \x27title\x27, or \x27clean\x27.")
        else if !(["upper", "lower", "title", "clean"].contains format_type) then
          .ok (tf_errEnv ("Invalid format type \x27" ++ format_type
                ++ "\x27. Use \x27upper\x27, \x27lower\x27, \x27title\x27, or \x27clean\x27."))
        else
          match format_text (pyStr (match text with | .null => .str "" | v => v)) format_type with
          | .error e => .error e
          | .ok result =>
              .ok (.obj [("success", .bool true), ("result", .str result), ("error", .str "")])

/-- Embedding of `process_request` from `text_formatter.py`: the body with
its `except Exception` clause. -/
def tf_process_request (request_data : Json) : Json :=
  match tf_process_body request_data with
  | .ok r => r
  | .error e => tf_errEnv e

/-- Embedding of `read_request` from `text_formatter.py`: like the data
counter, but the parse-error sentinel is `{"error": "Invalid JSON in request
file"}`. -/
def tf_read_request : Msg → Msg × Option Json
  | .empty => (.empty, none)
  | .malformed _ =>
      (.empty, some (.obj [("error", .str "Invalid JSON in request file")]))
  | .json v => (.empty, some v)

/-- One iteration of the `while True` loop of `main` in `text_formatter.py`:
a request that is a dict whose only key is `"error"` is answered by the
parse-error envelope without dispatching to `process_request`. -/
def tf_loop_body (s : ChanState) : Except String ChanState :=
  match tf_read_request s.req with
  | (req2, none) => .ok { s with req := req2 }
  | (req2, some request) =>
    if pyTruthy request then
      match pyContains "error" request with
      | .error e => .error e
      | .ok hasErr =>
        match (if hasErr then
                 match pyLen request with
                 | .error e => Except.error e
                 | .ok n => Except.ok (n == 1)
               else Except.ok false) with
        | .error e => .error e
        | .ok true =>
            match pySubscript request "error" with
            | .error e => .error e
            | .ok msg =>
                .ok { req := req2,
                      resp := .json (.obj [("success", .bool false),
                                           ("result", .str ""), ("error", msg)]) }
        | .ok false => .ok { req := req2, resp := .json (tf_process_request request) }
    else .ok { s with req := req2 }
/-- After clearing the response slot and writing the request, the channel
state is the same whatever it held before. -/
theorem startState_eq (m : Msg) (s : ChanState) :
    writeReqStep m (clearRespStep s) = ⟨m, .empty⟩ := by
  cases s; rfl

/-- The whole exchange is insensitive to the channel state it starts from. -/
theorem call_service_indep (eP eT r : Json) (w : Nat → Option Msg) (T : ℚ)
    (s0 s1 : ChanState) :
    call_service eP eT r w T s0 = call_service eP eT r w T s1 := by
  unfold call_service
  rw [startState_eq, startState_eq]

/-- A poll loop over a response slot that stays empty runs through all its
ticks and returns the timeout value. -/
theorem pollLoop_empty (eP eT : Json) (w : Nat → Option Msg)
    (hw : ∀ t, w t = none ∨ w t = some Msg.empty) :
    ∀ (k t : Nat) (q : Msg),
      pollLoop eP eT w k t ⟨q, .empty⟩ = ⟨eT, t + k, ⟨q, .empty⟩⟩ := by
  intro k
  induction k with
  | zero => intro t q; simp [pollLoop]
  | succ k ih =>
      intro t q
      have hstep : respWrite (w (t + 1)) ⟨q, .empty⟩ = ⟨q, Msg.empty⟩ := by
        rcases hw (t + 1) with h | h <;> simp [respWrite, h]
      have : pollLoop eP eT w (k + 1) t ⟨q, .empty⟩
          = pollLoop eP eT w k (t + 1) ⟨q, .empty⟩ := by
        simp only [pollLoop, hstep]
      rw [this, ih]
      congr 1
      omega

/-- A poll loop that sees only empty content until tick `K`, where malformed
content appears, returns the parse-error value at tick `K` and leaves the
malformed content in the response slot. -/
theorem pollLoop_malformed (eP eT : Json) (w : Nat → Option Msg) (c : String)
    (K : Nat) (hK : w K = some (Msg.malformed c))
    (hbefore : ∀ u, u < K → w u = none) :
    ∀ (k t : Nat) (q : Msg), t < K → K ≤ t + k →
      pollLoop eP eT w k t ⟨q, .empty⟩ = ⟨eP, K, ⟨q, .malformed c⟩⟩ := by
  intro k
  induction k with
  | zero => intro t q h1 h2; omega
  | succ k ih =>
      intro t q h1 h2
      by_cases hc : t + 1 = K
      · subst hc
        simp only [pollLoop, respWrite, hK]
      · have hlt : t + 1 < K := by omega
        have hnone : w (t + 1) = none := hbefore _ hlt
        have : pollLoop eP eT w (k + 1) t ⟨q, .empty⟩
            = pollLoop eP eT w k (t + 1) ⟨q, .empty⟩ := by
          simp only [pollLoop, respWrite, hnone]
        rw [this, ih (t + 1) q hlt (by omega)]

/-- Observational emptiness of `output.csv`: absent, or with content that is
empty after `strip()`. -/
def emptyObs : Option String → Prop :=
  fun o => ∀ c, o = some c → pyStrip c = ""

/-- One tick of the words poll loop advances past observationally empty
content: an environment write of blank content, or no write over a blank or
absent file, leads to the next tick. -/
theorem wordsPoll_step_none (w : Nat → Option String) (k t : Nat)
    (i o : Option String) (ho : emptyObs o) (hw : w (t + 1) = none) :
    wordsPoll w (k + 1) t ⟨i, o⟩ = wordsPoll w k (t + 1) ⟨i, o⟩ := by
  cases o with
  | none => simp only [wordsPoll, outWrite, hw]
  | some c =>
      have hc : pyStrip c = "" := ho c rfl
      simp only [wordsPoll, outWrite, hw, hc, beq_self_eq_true, if_true]

/-- One tick of the words poll loop on which the environment writes blank
content also advances to the next tick, on the written content. -/
theorem wordsPoll_step_blank (w : Nat → Option String) (k t : Nat)
    (i o : Option String) (c : String) (hw : w (t + 1) = some c)
    (hc : pyStrip c = "") :
    wordsPoll w (k + 1) t ⟨i, o⟩ = wordsPoll w k (t + 1) ⟨i, some c⟩ := by
  simp only [wordsPoll, outWrite, hw, hc, beq_self_eq_true, if_true]

/-- The words poll loop yields the same value and tick count from any two
observationally empty starting outputs with the same input file. -/
theorem wordsPoll_indep (w : Nat → Option String) :
    ∀ (k t : Nat) (i : Option String) (o1 o2 : Option String),
      emptyObs o1 → emptyObs o2 →
      (wordsPoll w k t ⟨i, o1⟩).value = (wordsPoll w k t ⟨i, o2⟩).value
      ∧ (wordsPoll w k t ⟨i, o1⟩).ticks = (wordsPoll w k t ⟨i, o2⟩).ticks := by
  intro k
  induction k with
  | zero => intro t i o1 o2 h1 h2; exact ⟨rfl, rfl⟩
  | succ k ih =>
      intro t i o1 o2 h1 h2
      cases hw : w (t + 1) with
      | some c =>
          have e1 : wordsPoll w (k + 1) t ⟨i, o1⟩ = wordsPoll w (k + 1) t ⟨i, some c⟩ := by
            simp only [wordsPoll, outWrite, hw]
          have e2 : wordsPoll w (k + 1) t ⟨i, o2⟩ = wordsPoll w (k + 1) t ⟨i, some c⟩ := by
            simp only [wordsPoll, outWrite, hw]
          rw [e1, e2]
          exact ⟨rfl, rfl⟩
      | none =>
          rw [wordsPoll_step_none w k t i o1 h1 hw, wordsPoll_step_none w k t i o2 h2 hw]
          exact ih (t + 1) i o1 o2 h1 h2

/-- A words poll loop that only ever sees blank output runs through all its
ticks and returns the empty string. -/
theorem wordsPoll_blank (w : Nat → Option String)
    (hw : ∀ t, w t = none ∨ ∃ c, w t = some c ∧ pyStrip c = "") :
    ∀ (k t : Nat) (i o : Option String), emptyObs o →
      (wordsPoll w k t ⟨i, o⟩).value = "" ∧ (wordsPoll w k t ⟨i, o⟩).ticks = t + k := by
  intro k
  induction k with
  | zero => intro t i o ho; exact ⟨rfl, rfl⟩
  | succ k ih =>
      intro t i o ho
      rcases hw (t + 1) with h | ⟨c, hc, hct⟩
      · rw [wordsPoll_step_none w k t i o ho h]
        have := ih (t + 1) i o ho
        exact ⟨this.1, by rw [this.2]; omega⟩
      · rw [wordsPoll_step_blank w k t i o c hc hct]
        have := ih (t + 1) i (some c) (fun d hd => by cases hd; exact hct)
        exact ⟨this.1, by rw [this.2]; omega⟩

/-- The timeout loop runs to at least the configured timeout: with 0.1 s per
tick, the elapsed time at the final guard failure is at least `T`. -/
theorem numPolls_lower (T : ℚ) : T ≤ secondsOf (numPolls T) := by
  have h1 : (10 : ℚ) * T ≤ ((⌈(10 : ℚ) * T⌉ : ℤ) : ℚ) := Int.le_ceil _
  have h2 : (⌈(10 : ℚ) * T⌉ : ℤ) ≤ ((⌈(10 : ℚ) * T⌉).toNat : ℤ) := Int.self_le_toNat _
  have h3 : ((⌈(10 : ℚ) * T⌉ : ℤ) : ℚ) ≤ (((⌈(10 : ℚ) * T⌉).toNat : ℤ) : ℚ) := by
    exact_mod_cast h2
  unfold secondsOf numPolls
  push_cast at h3 ⊢
  linarith

/-- The timeout loop stops within one poll interval past the configured
timeout. -/
theorem numPolls_upper (T : ℚ) (hT : 0 ≤ T) :
    secondsOf (numPolls T) ≤ T + 1 / 10 := by
  unfold secondsOf numPolls
  rcases le_or_lt (⌈(10 : ℚ) * T⌉) 0 with h | h
  · rw [Int.toNat_of_nonpos h]
    push_cast
    linarith
  · have h1 : ((⌈(10 : ℚ) * T⌉ : ℤ) : ℚ) < (10 : ℚ) * T + 1 := Int.ceil_lt_add_one _
    have h2 : ((⌈(10 : ℚ) * T⌉).toNat : ℤ) = ⌈(10 : ℚ) * T⌉ := Int.toNat_of_nonneg (le_of_lt h)
    have h3 : (((⌈(10 : ℚ) * T⌉).toNat : ℤ) : ℚ) = ((⌈(10 : ℚ) * T⌉ : ℤ) : ℚ) := by
      exact_mod_cast h2
    push_cast at h3 ⊢
    rw [h3]
    linarith

/-- C1: every one of the four caller functions clears the response slot
(leaving the request slot untouched) before writing its request, so the
whole exchange — returned value, elapsed ticks and, for the JSON channels,
final state — is independent of whatever the response slot held when the
exchange started: no caller ever returns content that was already in the
response slot before its own request was written. -/
theorem claim_C1_response_cleared_before_request (r : Json) (text ft : String)
    (items : List Json) (w : Nat → Option Msg) (ww : Nat → Option String)
    (T : ℚ) (s0 s1 : ChanState) (ws0 ws1 : WordsState) :
    ((clearRespStep s0).resp = Msg.empty ∧ (clearRespStep s0).req = s0.req
      ∧ writeReqStep (Msg.json r) (clearRespStep s0) = ⟨Msg.json r, Msg.empty⟩)
    ∧ call_rng_service r w T s0 = call_rng_service r w T s1
    ∧ call_text_formatter text ft w T s0 = call_text_formatter text ft w T s1
    ∧ call_data_counter items w T s0 = call_data_counter items w T s1
    ∧ ((clearOutputStep ws0).input = ws0.input
       ∧ (∀ c, ws0.output = some c → (clearOutputStep ws0).output = some "")
       ∧ (call_words_service text ww T ws0).value = (call_words_service text ww T ws1).value
       ∧ (call_words_service text ww T ws0).ticks = (call_words_service text ww T ws1).ticks) := by
  refine ⟨⟨rfl, rfl, startState_eq _ _⟩, call_service_indep _ _ _ _ _ _ _,
    call_service_indep _ _ _ _ _ _ _, call_service_indep _ _ _ _ _ _ _,
    rfl, ?_, ?_, ?_⟩
  · intro c hc
    simp [clearOutputStep, hc]
  · have h := wordsPoll_indep ww (numPolls T) 0 (some text)
      (ws0.output.map (fun _ => "")) (ws1.output.map (fun _ => ""))
      (by intro c hc; cases h0 : ws0.output <;> simp [h0] at hc; subst hc; decide)
      (by intro c hc; cases h0 : ws1.output <;> simp [h0] at hc; subst hc; decide)
    exact h.1
  · have h := wordsPoll_indep ww (numPolls T) 0 (some text)
      (ws0.output.map (fun _ => "")) (ws1.output.map (fun _ => ""))
      (by intro c hc; cases h0 : ws0.output <;> simp [h0] at hc; subst hc; decide)
      (by intro c hc; cases h0 : ws1.output <;> simp [h0] at hc; subst hc; decide)
    exact h.2

/-- Iteration count of the polling loop at the default 5-second timeout. -/
theorem numPolls_five : numPolls 5 = 50 := by
  norm_num [numPolls]
  decide

/-- C2: when no worker ever puts non-empty content into the response slot,
every one of the four caller functions returns its timeout error value, and
it does so after exactly `numPolls T` sleeps of 0.1 s, an elapsed time that
is at least the configured timeout `T` and at most `T` plus one poll
interval. -/
theorem claim_C2_timeout_bounds (r : Json) (text ft : String) (items : List Json)
    (w : Nat → Option Msg) (ww : Nat → Option String) (T : ℚ)
    (hT : 0 ≤ T)
    (hw : ∀ t, w t = none ∨ w t = some Msg.empty)
    (hww : ∀ t, ww t = none ∨ ∃ c, ww t = some c ∧ pyStrip c = "")
    (s0 : ChanState) (ws0 : WordsState) :
    (call_rng_service r w T s0).value = rngTimeoutEnv
    ∧ (call_text_formatter text ft w T s0).value = svcTimeoutEnv
    ∧ (call_data_counter items w T s0).value = svcTimeoutEnv
    ∧ (call_words_service text ww T ws0).value = ""
    ∧ (call_rng_service r w T s0).ticks = numPolls T
    ∧ (call_text_formatter text ft w T s0).ticks = numPolls T
    ∧ (call_data_counter items w T s0).ticks = numPolls T
    ∧ (call_words_service text ww T ws0).ticks = numPolls T
    ∧ T ≤ secondsOf (numPolls T)
    ∧ secondsOf (numPolls T) ≤ T + 1 / 10 := by
  have hgen : ∀ (eP eT req : Json) (s : ChanState),
      call_service eP eT req w T s = ⟨eT, numPolls T, ⟨.json req, .empty⟩⟩ := by
    intro eP eT req s
    unfold call_service
    rw [startState_eq]
    have h := pollLoop_empty eP eT w hw (numPolls T) 0 (.json req)
    simpa using h
  have hwords := wordsPoll_blank ww hww (numPolls T) 0 (some text)
      (ws0.output.map (fun _ => ""))
      (by intro c hc; cases h0 : ws0.output <;> simp [h0] at hc; subst hc; decide)
  refine ⟨?_, ?_, ?_, ?_, ?_, ?_, ?_, ?_, numPolls_lower T, numPolls_upper T hT⟩
  · rw [show call_rng_service r w T s0 = _ from hgen _ _ _ _]
  · rw [show call_text_formatter text ft w T s0 = _ from hgen _ _ _ _]
  · rw [show call_data_counter items w T s0 = _ from hgen _ _ _ _]
  · exact hwords.1
  · rw [show call_rng_service r w T s0 = _ from hgen _ _ _ _]
  · rw [show call_text_formatter text ft w T s0 = _ from hgen _ _ _ _]
  · rw [show call_data_counter items w T s0 = _ from hgen _ _ _ _]
  · rw [show (call_words_service text ww T ws0).ticks = _ from hwords.2]
    omega

/-- Witness for C2 at the default timeout of 5 s with a silent environment. -/
theorem claim_C2_timeout_bounds_witness :
    ((0 : ℚ) ≤ 5
     ∧ (∀ _t : Nat, (none : Option Msg) = none ∨ (none : Option Msg) = some Msg.empty)
     ∧ (∀ _t : Nat, (none : Option String) = none
          ∨ ∃ c, (none : Option String) = some c ∧ pyStrip c = ""))
    ∧ (call_rng_service Json.null (fun _ => none) 5 ⟨Msg.empty, Msg.empty⟩).value = rngTimeoutEnv
    ∧ (call_rng_service Json.null (fun _ => none) 5 ⟨Msg.empty, Msg.empty⟩).ticks = numPolls 5
    ∧ (call_words_service "x" (fun _ => none) 5 ⟨none, none⟩).value = ""
    ∧ (5 : ℚ) ≤ secondsOf (numPolls 5)
    ∧ secondsOf (numPolls 5) ≤ 5 + 1 / 10 := by
  have h := claim_C2_timeout_bounds Json.null "x" "title" [] (fun _ => none)
    (fun _ => none) 5 (by norm_num) (fun _ => Or.inl rfl) (fun _ => Or.inl rfl)
    ⟨Msg.empty, Msg.empty⟩ ⟨none, none⟩
  exact ⟨⟨by norm_num, fun _ => Or.inl rfl, fun _ => Or.inl rfl⟩,
    h.1, h.2.2.2.2.1, h.2.2.2.1, h.2.2.2.2.2.2.2.2.1, h.2.2.2.2.2.2.2.2.2⟩

/-- C5, amended: when the first non-empty content the caller ever sees in
the response slot is unparseable (written at tick `K`), the caller returns
its fixed parse-error value at that very tick — no further polling and no
retry — but it does NOT clear the response slot: the malformed content stays
in the slot.  It still cannot poison a later exchange, because the next
exchange clears the response slot before doing anything else, which the
final conjunct records. -/
theorem claim_C5_parse_error_immediate (r : Json) (text ft : String)
    (w : Nat → Option Msg) (T : ℚ) (K : Nat) (c : String) (s0 : ChanState)
    (h1 : ∀ u, u < K → w u = none)
    (h2 : w K = some (Msg.malformed c))
    (hK1 : 1 ≤ K) (hK2 : K ≤ numPolls T) :
    (call_rng_service r w T s0).value = rngParseErrEnv
    ∧ (call_rng_service r w T s0).ticks = K
    ∧ (call_rng_service r w T s0).final.resp = Msg.malformed c
    ∧ (call_text_formatter text ft w T s0).value = svcParseErrEnv
    ∧ (call_text_formatter text ft w T s0).ticks = K
    ∧ (call_text_formatter text ft w T s0).final.resp = Msg.malformed c
    ∧ (∀ (r2 : Json) (w2 : Nat → Option Msg) (T2 : ℚ),
        call_rng_service r2 w2 T2 (call_rng_service r w T s0).final
          = call_rng_service r2 w2 T2 s0) := by
  have hgen : ∀ (eP eT req : Json) (s : ChanState),
      call_service eP eT req w T s = ⟨eP, K, ⟨.json req, .malformed c⟩⟩ := by
    intro eP eT req s
    unfold call_service
    rw [startState_eq]
    exact pollLoop_malformed eP eT w c K h2 h1 (numPolls T) 0 (.json req)
      (by omega) (by omega)
  refine ⟨?_, ?_, ?_, ?_, ?_, ?_, fun r2 w2 T2 => call_service_indep _ _ _ _ _ _ _⟩
  · rw [show call_rng_service r w T s0 = _ from hgen _ _ _ _]
  · rw [show call_rng_service r w T s0 = _ from hgen _ _ _ _]
  · rw [show call_rng_service r w T s0 = _ from hgen _ _ _ _]
  · rw [show call_text_formatter text ft w T s0 = _ from hgen _ _ _ _]
  · rw [show call_text_formatter text ft w T s0 = _ from hgen _ _ _ _]
  · rw [show call_text_formatter text ft w T s0 = _ from hgen _ _ _ _]

/-- Witness for the amended C5: the worker writes malformed content at tick
3 of a 5-second exchange. -/
theorem claim_C5_parse_error_immediate_witness :
    ((∀ u, u < 3 → (if u = 3 then some (Msg.malformed "bad") else none) = none)
     ∧ (if 3 = 3 then some (Msg.malformed "bad") else none) = some (Msg.malformed "bad")
     ∧ 1 ≤ 3 ∧ 3 ≤ numPolls 5)
    ∧ (call_rng_service Json.null
         (fun t => if t = 3 then some (Msg.malformed "bad") else none) 5
         ⟨Msg.empty, Msg.empty⟩).value = rngParseErrEnv
    ∧ (call_rng_service Json.null
         (fun t => if t = 3 then some (Msg.malformed "bad") else none) 5
         ⟨Msg.empty, Msg.empty⟩).ticks = 3 := by
  have hK2 : 3 ≤ numPolls 5 := by rw [numPolls_five]; omega
  have h1 : ∀ u, u < 3 → (fun t => if t = 3 then some (Msg.malformed "bad") else none) u = none := by
    intro u hu
    simp only [if_neg (by omega : ¬ u = 3)]
  have h := claim_C5_parse_error_immediate Json.null "x" "title"
    (fun t => if t = 3 then some (Msg.malformed "bad") else none) 5 3 "bad"
    ⟨Msg.empty, Msg.empty⟩ h1 rfl (by omega) hK2
  exact ⟨⟨h1, rfl, by omega, hK2⟩, h.1, h.2.1⟩

/-- C5 counterexample: the caller does not clear the offending content.  In
a concrete exchange whose first response-slot content is malformed, the
caller returns the parse-error value but the response file still holds the
malformed content afterwards, so the claim that the caller clears it is
false of the code. -/
theorem claim_C5_counterexample :
    (call_rng_service Json.null
       (fun t => if t = 1 then some (Msg.malformed "oops") else none) 5
       ⟨Msg.empty, Msg.empty⟩).value = rngParseErrEnv
    ∧ (call_rng_service Json.null
         (fun t => if t = 1 then some (Msg.malformed "oops") else none) 5
         ⟨Msg.empty, Msg.empty⟩).final.resp = Msg.malformed "oops"
    ∧ Msg.malformed "oops" ≠ Msg.empty := by
  refine ⟨?_, ?_, fun h => Msg.noConfusion h⟩
  · simp only [call_rng_service, call_service, numPolls_five]
    rfl
  · simp only [call_rng_service, call_service, numPolls_five]
    rfl


/-- An idle worker iteration: an empty request slot leaves the channel
unchanged. -/
theorem dc_loop_body_idle (re : Msg) :
    dc_loop_body ⟨Msg.empty, re⟩ = .ok ⟨Msg.empty, re⟩ := rfl

/-- An idle text-formatter iteration: an empty request slot leaves the
channel unchanged. -/
theorem tf_loop_body_idle (re : Msg) :
    tf_loop_body ⟨Msg.empty, re⟩ = .ok ⟨Msg.empty, re⟩ := rfl

/-- Whenever a data-counter iteration completes without an exception, the
request slot it leaves behind is the one `read_request` committed. -/
theorem dc_loop_body_req (s s2 : ChanState) (h : dc_loop_body s = .ok s2) :
    s2.req = (dc_read_request s.req).1 := by
  unfold dc_loop_body at h
  split at h <;> rename_i heq
  · cases h; rw [heq]
  · rw [heq]
    repeat' split at h
    all_goals first
      | (cases h; rfl)
      | exact absurd h (by simp)

/-- Whenever a text-formatter iteration completes without an exception, the
request slot it leaves behind is the one `read_request` committed. -/
theorem tf_loop_body_req (s s2 : ChanState) (h : tf_loop_body s = .ok s2) :
    s2.req = (tf_read_request s.req).1 := by
  unfold tf_loop_body at h
  split at h <;> rename_i heq
  · cases h; rw [heq]
  · rw [heq]
    repeat' split at h
    all_goals first
      | (cases h; rfl)
      | exact absurd h (by simp)

/-- C3: in both workers, a non-empty request slot is cleared by
`read_request` before the content is handed to the loop for dispatch — also
when the content is unparseable — and once an iteration has completed, a
further iteration finds the slot empty and changes nothing, so the same
request content is never consumed or processed twice. -/
theorem claim_C3_request_cleared_before_dispatch (m : Msg) (s sDC sTF : ChanState)
    (h : m ≠ Msg.empty) (hs : s.req = m)
    (hdc : dc_loop_body s = .ok sDC) (htf : tf_loop_body s = .ok sTF) :
    (dc_read_request m).1 = Msg.empty
    ∧ (tf_read_request m).1 = Msg.empty
    ∧ dc_read_request Msg.empty = (Msg.empty, none)
    ∧ tf_read_request Msg.empty = (Msg.empty, none)
    ∧ sDC.req = Msg.empty ∧ sTF.req = Msg.empty
    ∧ dc_loop_body sDC = .ok sDC ∧ tf_loop_body sTF = .ok sTF := by
  have hm : ∀ mm : Msg, mm ≠ Msg.empty → (dc_read_request mm).1 = Msg.empty
      ∧ (tf_read_request mm).1 = Msg.empty := by
    intro mm hmm
    cases mm with
    | empty => exact absurd rfl hmm
    | malformed c => exact ⟨rfl, rfl⟩
    | json v => exact ⟨rfl, rfl⟩
  have hdcreq : sDC.req = Msg.empty := by
    rw [dc_loop_body_req s sDC hdc, hs]
    exact (hm m h).1
  have htfreq : sTF.req = Msg.empty := by
    rw [tf_loop_body_req s sTF htf, hs]
    exact (hm m h).2
  refine ⟨(hm m h).1, (hm m h).2, rfl, rfl, hdcreq, htfreq, ?_, ?_⟩
  · cases sDC with
    | mk rq rs =>
        cases hdcreq
        exact dc_loop_body_idle rs
  · cases sTF with
    | mk rq rs =>
        cases htfreq
        exact tf_loop_body_idle rs

/-- Witness for C3: a malformed request in the data-counter and
text-formatter request slot. -/
theorem claim_C3_request_cleared_before_dispatch_witness :
    (Msg.malformed "not json" ≠ Msg.empty
     ∧ (⟨Msg.malformed "not json", Msg.empty⟩ : ChanState).req = Msg.malformed "not json")
    ∧ (dc_read_request (Msg.malformed "not json")).1 = Msg.empty
    ∧ (tf_read_request (Msg.malformed "not json")).1 = Msg.empty := by
  have h := claim_C3_request_cleared_before_dispatch (Msg.malformed "not json")
    ⟨Msg.malformed "not json", Msg.empty⟩
    ⟨Msg.empty, Msg.json (Json.obj [("success", .bool false),
        ("error", .str "Invalid JSON in request file")])⟩
    ⟨Msg.empty, Msg.json (Json.obj [("success", .bool false), ("result", .str ""),
        ("error", .str "Invalid JSON in request file")])⟩
    (fun hh => Msg.noConfusion hh) rfl rfl rfl
  exact ⟨⟨fun hh => Msg.noConfusion hh, rfl⟩, h.1, h.2.1⟩

/-- Canonical parse-failure envelope the data counter actually writes. -/
def dcParseEnv : Json :=
  .obj [("success", .bool false), ("error", .str "Invalid JSON in request file")]

/-- Canonical parse-failure envelope the text formatter actually writes. -/
def tfParseEnv : Json :=
  .obj [("success", .bool false), ("result", .str ""),
        ("error", .str "Invalid JSON in request file")]

/-- C4, amended: on a request slot holding non-empty unparseable content,
each worker clears the slot, writes its parse-failure envelope — success
false with the error message "Invalid JSON in request file", the text
formatter additionally carrying an empty result field — and the loop
continues: the next iteration finds the slot empty and changes nothing, so
the worker neither loops forever on the content nor crashes. -/
theorem claim_C4_malformed_request_envelope (c : String) (re : Msg) :
    dc_loop_body ⟨Msg.malformed c, re⟩ = .ok ⟨Msg.empty, Msg.json dcParseEnv⟩
    ∧ tf_loop_body ⟨Msg.malformed c, re⟩ = .ok ⟨Msg.empty, Msg.json tfParseEnv⟩
    ∧ dc_loop_body ⟨Msg.empty, Msg.json dcParseEnv⟩ = .ok ⟨Msg.empty, Msg.json dcParseEnv⟩
    ∧ tf_loop_body ⟨Msg.empty, Msg.json tfParseEnv⟩ = .ok ⟨Msg.empty, Msg.json tfParseEnv⟩ :=
  ⟨rfl, rfl, rfl, rfl⟩

/-- C4 counterexample: the envelope written for unparseable content carries
the error message "Invalid JSON in request file", not the message
"invalid payload" stated by the claim. -/
theorem claim_C4_counterexample :
    dc_loop_body ⟨Msg.malformed "oops", Msg.empty⟩
      = .ok ⟨Msg.empty, Msg.json (Json.obj [("success", Json.bool false),
          ("error", Json.str "Invalid JSON in request file")])⟩
    ∧ "Invalid JSON in request file" ≠ "invalid payload" :=
  ⟨rfl, by decide⟩

/-- C6, amended: any exception raised inside `process_request` (handler
execution) is caught there and becomes an error envelope with success false
and the exception message in the error field, the loop writes that envelope
and continues — but protection stops at the handler: a request that parses
to a non-iterable JSON value such as a number crashes the loop in the
parse-error guard before any dispatch (see the counterexample). -/
theorem claim_C6_handler_faults_isolated (v : Json) (re : Msg)
    (htru : pyTruthy v = true)
    (hpe : pyContains "_parse_error" v = .ok false) :
    dc_loop_body ⟨Msg.json v, re⟩ = .ok ⟨Msg.empty, Msg.json (dc_process_request v)⟩
    ∧ (∀ e, dc_process_body v = .error e → dc_process_request v = dc_errEnv e)
    ∧ dc_loop_body ⟨Msg.empty, Msg.json (dc_process_request v)⟩
        = .ok ⟨Msg.empty, Msg.json (dc_process_request v)⟩
    ∧ dc_process_body (Json.obj [("mode", Json.num 5)])
        = .error "\x27int\x27 object has no attribute \x27lower\x27"
    ∧ dc_process_request (Json.obj [("mode", Json.num 5)])
        = dc_errEnv "\x27int\x27 object has no attribute \x27lower\x27" := by
  refine ⟨?_, ?_, rfl, rfl, rfl⟩
  · simp only [dc_loop_body, dc_read_request, htru, hpe, if_true]
  · intro e he
    unfold dc_process_request
    rw [he]

/-- Witness for C6: the request dict with a non-string mode makes the
handler raise `AttributeError`; the loop still writes an envelope. -/
theorem claim_C6_handler_faults_isolated_witness :
    (pyTruthy (Json.obj [("mode", Json.num 5)]) = true
     ∧ pyContains "_parse_error" (Json.obj [("mode", Json.num 5)]) = .ok false)
    ∧ dc_loop_body ⟨Msg.json (Json.obj [("mode", Json.num 5)]), Msg.empty⟩
        = .ok ⟨Msg.empty, Msg.json (dc_process_request (Json.obj [("mode", Json.num 5)]))⟩
    ∧ dc_process_request (Json.obj [("mode", Json.num 5)])
        = dc_errEnv "\x27int\x27 object has no attribute \x27lower\x27" := by
  have h := claim_C6_handler_faults_isolated (Json.obj [("mode", Json.num 5)])
    Msg.empty rfl rfl
  exact ⟨⟨rfl, rfl⟩, h.1, rfl⟩

/-- C6 counterexample: the loop is not protected outside the handler.  A
request slot holding the valid JSON text "5" parses to a number; the guard
expression testing membership of the parse-error sentinel key raises
`TypeError`, which only `except KeyboardInterrupt` surrounds, so the worker
loop terminates without any external termination. -/
theorem claim_C6_counterexample :
    dc_loop_body ⟨Msg.json (Json.num 5), Msg.empty⟩
      = .error "argument of type \x27int\x27 is not iterable" := rfl

/-- C10: a request that parses to a JSON object whose only key is "error"
is answered by the text formatter exactly like a JSON parse failure — the
envelope success false, empty result, and that key's value as the error —
and `process_request` is never consulted: on such a request the handler
itself would have produced a different envelope (the missing-format
validation error), as the last two conjuncts show on a concrete instance. -/
theorem claim_C10_error_key_hijack (v : Json) (re : Msg) :
    tf_loop_body ⟨Msg.json (Json.obj [("error", v)]), re⟩
      = .ok ⟨Msg.empty, Msg.json (Json.obj [("success", Json.bool false),
          ("result", Json.str ""), ("error", v)])⟩
    ∧ tf_process_request (Json.obj [("error", Json.str "boom")])
        = tf_errEnv "Missing \x27format\x27 field. Use \x27upper\x27, \x27lower\x27, \x27title\x27, or \x27clean\x27."
    ∧ Json.obj [("success", Json.bool false), ("result", Json.str ""),
          ("error", Json.str "boom")]
        ≠ tf_errEnv "Missing \x27format\x27 field. Use \x27upper\x27, \x27lower\x27, \x27title\x27, or \x27clean\x27." := by
  refine ⟨rfl, rfl, ?_⟩
  intro hh
  simp [tf_errEnv] at hh


/-- Combining an accumulator entry with the count contributed by the rest of
the traversal. -/
def combineCount (o : Option Nat) (n : Nat) : Option Nat :=
  match o with
  | some k => some (k + n)
  | none => if n = 0 then none else some n

/-- Combining with a zero contribution is the identity. -/
theorem combineCount_zero (o : Option Nat) : combineCount o 0 = o := by
  cases o <;> simp [combineCount]

/-- Bumping one key of the accumulator does not change its key list. -/
theorem map_fst_bump (acc : List (String × Nat)) (x : String) :
    (acc.map (fun p => if p.1 = x then (p.1, p.2 + 1) else p)).map Prod.fst
      = acc.map Prod.fst := by
  induction acc with
  | nil => rfl
  | cons a l ih => by_cases h : a.1 = x <;> simp [h, ih]

/-- Lookup through the bump of key `x`: the entry at `x` is incremented, all
other entries are untouched. -/
theorem alistGet_bump (acc : List (String × Nat)) (x s : String) :
    alistGet (acc.map (fun p => if p.1 = x then (p.1, p.2 + 1) else p)) s
      = if s = x then (alistGet acc s).map (fun n => n + 1)
        else alistGet acc s := by
  induction acc with
  | nil => by_cases h : s = x <;> simp [h, alistGet]
  | cons a l ih =>
      obtain ⟨k, v⟩ := a
      rw [List.map_cons]
      have hhead : (if (k, v).1 = x then ((k, v).1, (k, v).2 + 1) else (k, v))
          = if k = x then (k, v + 1) else (k, v) := rfl
      rw [hhead]
      by_cases hkx : k = x
      · rw [if_pos hkx]
        by_cases hks : k = s
        · have hsx : s = x := by rw [← hks, hkx]
          simp [alistGet, hks, hsx]
        · by_cases hsx : s = x
          · subst hsx
            simp [alistGet, hkx, hks, ih]
          · have hxs : ¬ x = s := fun hh => hsx hh.symm
            simp [alistGet, hkx, hks, hsx, hxs, ih]
      · rw [if_neg hkx]
        by_cases hks : k = s
        · have hsx : ¬ s = x := by rw [← hks]; exact hkx
          simp [alistGet, hks, hsx]
        · by_cases hsx : s = x
          · subst hsx
            simp [alistGet, hkx, hks, ih]
          · have hxs : ¬ x = s := fun hh => hsx hh.symm
            simp [alistGet, hkx, hks, hsx, hxs, ih]

/-- Lookup through appending one fresh entry. -/
theorem alistGet_append_single (acc : List (String × Nat)) (x s : String) :
    alistGet (acc ++ [(x, 1)]) s
      = match alistGet acc s with
        | some k => some k
        | none => if x = s then some 1 else none := by
  induction acc with
  | nil => simp [alistGet]
  | cons a l ih =>
      by_cases has : a.1 = s <;> simp [alistGet, has, ih]

/-- The effect of one tally step on an arbitrary lookup. -/
theorem alistGet_tallyStep (acc : List (String × Nat)) (x s : String) :
    alistGet (tallyStep acc x) s
      = if s = x then
          (match alistGet acc x with
           | some k => some (k + 1)
           | none => some 1)
        else alistGet acc s := by
  unfold tallyStep
  cases hx : alistGet acc x with
  | some k =>
      rw [alistGet_bump]
      by_cases hsx : s = x
      · subst hsx
        simp [hx]
      · simp [hsx]
  | none =>
      rw [alistGet_append_single]
      by_cases hsx : s = x
      · subst hsx
        simp [hx]
      · have : ¬ x = s := fun hh => hsx hh.symm
        cases hs : alistGet acc s <;> simp [hsx, this]

/-- Invariant of the tally fold: after processing `xs` the entry of any key
`s` is its accumulator entry plus the number of occurrences of `s` in
`xs`. -/
theorem alistGet_tally_fold (xs : List String) :
    ∀ (acc : List (String × Nat)) (s : String),
      alistGet (xs.foldl tallyStep acc) s
        = combineCount (alistGet acc s) (xs.count s) := by
  induction xs with
  | nil => intro acc s; simp [combineCount_zero]
  | cons x xs ih =>
      intro acc s
      rw [List.foldl_cons, ih (tallyStep acc x) s, alistGet_tallyStep]
      by_cases hsx : s = x
      · subst hsx
        rw [List.count_cons_self]
        cases hx : alistGet acc s <;> simp [hx, combineCount] <;> omega
      · rw [List.count_cons_of_ne hsx]
        simp [hsx]

/-- Every element of the list has a tally entry equal to its occurrence
count. -/
theorem alistGet_tally (xs : List String) (s : String) (h : s ∈ xs) :
    alistGet (tally xs) s = some (xs.count s) := by
  unfold tally
  rw [alistGet_tally_fold xs [] s]
  have hc : xs.count s ≠ 0 := fun hh => (List.count_eq_zero.mp hh) h
  simp [alistGet, combineCount, hc]

/-- Key membership decides lookup failure. -/
theorem alistGet_eq_none_iff (acc : List (String × Nat)) (x : String) :
    alistGet acc x = none ↔ ¬ x ∈ acc.map Prod.fst := by
  induction acc with
  | nil => simp [alistGet]
  | cons a l ih =>
      obtain ⟨k, v⟩ := a
      rw [List.map_cons, List.mem_cons]
      by_cases hkx : k = x
      · subst hkx
        simp [alistGet]
      · have hxk : ¬ x = k := fun hh => hkx hh.symm
        simp [alistGet, hkx, hxk, ih]

/-- Key list of one tally step: unchanged for a seen key, extended by a
fresh key. -/
theorem map_fst_tallyStep (acc : List (String × Nat)) (x : String) :
    (tallyStep acc x).map Prod.fst
      = match alistGet acc x with
        | some _ => acc.map Prod.fst
        | none => acc.map Prod.fst ++ [x] := by
  unfold tallyStep
  cases hx : alistGet acc x with
  | some k => simpa using map_fst_bump acc x
  | none => simp

/-- A key appears in the folded tally exactly when it was already in the
accumulator or occurs in the list. -/
theorem mem_keys_tally_fold (xs : List String) :
    ∀ (acc : List (String × Nat)) (s : String),
      s ∈ (xs.foldl tallyStep acc).map Prod.fst
        ↔ s ∈ acc.map Prod.fst ∨ s ∈ xs := by
  induction xs with
  | nil => intro acc s; simp
  | cons x xs ih =>
      intro acc s
      rw [List.foldl_cons, ih (tallyStep acc x) s, map_fst_tallyStep]
      cases hx : alistGet acc x with
      | some k =>
          have hxmem : x ∈ acc.map Prod.fst := by
            by_contra hc
            rw [← alistGet_eq_none_iff] at hc
            rw [hc] at hx
            exact Option.noConfusion hx
          by_cases hs : s = x
          · subst hs
            simp [hxmem]
          · simp [List.mem_cons, hs]
      | none =>
          simp [List.mem_append, List.mem_cons]
          tauto

/-- The folded tally keeps its key list duplicate-free. -/
theorem nodup_keys_tally_fold (xs : List String) :
    ∀ acc : List (String × Nat),
      (acc.map Prod.fst).Nodup → ((xs.foldl tallyStep acc).map Prod.fst).Nodup := by
  induction xs with
  | nil => intro acc h; simpa using h
  | cons x xs ih =>
      intro acc h
      rw [List.foldl_cons]
      apply ih
      rw [map_fst_tallyStep]
      cases hx : alistGet acc x with
      | some k => simpa using h
      | none =>
          have hnot : ¬ x ∈ acc.map Prod.fst := (alistGet_eq_none_iff acc x).mp hx
          simp [List.nodup_append, h, hnot]

/-- The tally has exactly one entry per distinct element of the list. -/
theorem tally_length (xs : List String) : (tally xs).length = xs.dedup.length := by
  have hnd : ((tally xs).map Prod.fst).Nodup :=
    nodup_keys_tally_fold xs [] (by simp)
  have hmem : ∀ s, s ∈ (tally xs).map Prod.fst ↔ s ∈ xs := by
    intro s
    rw [tally, mem_keys_tally_fold xs [] s]
    simp
  have hfin : ((tally xs).map Prod.fst).toFinset = xs.toFinset := by
    apply Finset.ext
    intro a
    simp [List.mem_toFinset, hmem]
  calc (tally xs).length
      = ((tally xs).map Prod.fst).length := (List.length_map _ _).symm
    _ = ((tally xs).map Prod.fst).toFinset.card := (List.toFinset_card_of_nodup hnd).symm
    _ = xs.toFinset.card := by rw [hfin]
    _ = xs.dedup.length := List.card_toFinset xs

/-- Lookup commutes with wrapping the tally counts as JSON numbers. -/
theorem alistGet_map_json (l : List (String × Nat)) (s : String) :
    alistGet (l.map (fun p => (p.1, Json.num (p.2 : Int)))) s
      = (alistGet l s).map (fun n => Json.num (n : Int)) := by
  induction l with
  | nil => simp [alistGet]
  | cons a l ih =>
      obtain ⟨k, v⟩ := a
      by_cases hks : k = s <;> simp [alistGet, hks, ih]

/-- C7: the count mode of the data counter returns a success envelope with
total_count the length of the data list, unique_count the number of
distinct string conversions of its elements, and item_counts giving every
stringified element its number of occurrences — items equal under string
conversion share one bucket; on the concrete list from the spec it yields
total 6, unique 3, and counts a 3, b 2, c 1. -/
theorem claim_C7_count_mode (items : List Json) :
    dc_process_request (Json.obj [("mode", Json.str "count"), ("data", Json.arr items)])
      = count_items items
    ∧ count_items items
      = Json.obj [("success", Json.bool true),
          ("total_count", Json.num (items.length : Int)),
          ("unique_count", Json.num (((items.map pyStr).dedup.length : Nat) : Int)),
          ("item_counts",
            Json.obj ((tally (items.map pyStr)).map (fun p => (p.1, Json.num (p.2 : Int))))),
          ("error", Json.str "")]
    ∧ (∀ x ∈ items,
        alistGet ((tally (items.map pyStr)).map (fun p => (p.1, Json.num (p.2 : Int)))) (pyStr x)
          = some (Json.num (((items.map pyStr).count (pyStr x) : Nat) : Int)))
    ∧ dc_process_request (Json.obj [("mode", Json.str "count"),
        ("data", Json.arr [Json.str "a", Json.str "b", Json.str "a", Json.str "c",
                           Json.str "b", Json.str "a"])])
      = Json.obj [("success", Json.bool true), ("total_count", Json.num 6),
          ("unique_count", Json.num 3),
          ("item_counts", Json.obj [("a", Json.num 3), ("b", Json.num 2), ("c", Json.num 1)]),
          ("error", Json.str "")] := by
  refine ⟨rfl, ?_, ?_, rfl⟩
  · unfold count_items
    simp only [List.length_map, tally_length]
  · intro x hx
    rw [alistGet_map_json, alistGet_tally (items.map pyStr) (pyStr x)
      (List.mem_map_of_mem pyStr hx)]
    rfl

/-- C8: `format_text` is a function of the pair (text, format) — the
embedding is a pure Lean function, so determinism is by construction.  The
clean format keeps exactly the letters, digits and whitespace of the text,
in place and in order: the result is a sublist of the original characters,
every surviving character is in the kept class, and every kept-class
character survives with its exact multiplicity.  The two concrete examples
of the spec hold, both at the `format_text` level and through the full
handler `process_request`. -/
theorem claim_C8_format_examples (t : String) :
    (format_text t "clean" = .ok (pyClean t)
     ∧ (pyClean t).data.Sublist t.data
     ∧ (∀ c, c ∈ (pyClean t).data → pyIsClean c = true)
     ∧ (∀ c, pyIsClean c = true → (pyClean t).data.count c = t.data.count c))
    ∧ format_text "the lord of the rings" "title" = .ok "The Lord Of The Rings"
    ∧ format_text "he said: \x27hi!\x27" "clean" = .ok "he said hi"
    ∧ tf_process_request (Json.obj [("text", Json.str "the lord of the rings"),
        ("format", Json.str "title")])
        = Json.obj [("success", Json.bool true),
            ("result", Json.str "The Lord Of The Rings"), ("error", Json.str "")]
    ∧ tf_process_request (Json.obj [("text", Json.str "he said: \x27hi!\x27"),
        ("format", Json.str "clean")])
        = Json.obj [("success", Json.bool true),
            ("result", Json.str "he said hi"), ("error", Json.str "")] := by
  refine ⟨⟨rfl, ?_, ?_, ?_⟩, rfl, rfl, rfl, rfl⟩
  · exact List.filter_sublist t.data
  · intro c hc
    exact (List.mem_filter.mp hc).2
  · intro c hc
    exact List.count_filter hc

/-- A string whose first fragment is non-empty is non-empty. -/
theorem append_ne_empty_left (a b : String) (h : a.data ≠ []) : a ++ b ≠ "" := by
  intro hh
  apply h
  have hd : (a ++ b).data = ("" : String).data := by rw [hh]
  rw [String.data_append] at hd
  exact (List.append_eq_nil.mp hd).1

/-- A three-part concatenation with a non-empty head is non-empty. -/
theorem append3_ne_empty (a b c : String) (h : a.data ≠ []) : a ++ b ++ c ≠ "" := by
  apply append_ne_empty_left
  rw [String.data_append]
  intro hh
  exact h (List.append_eq_nil.mp hh).1

/-- C9, amended: whenever the format field of a request object is missing,
or is a string whose lowercasing is not one of upper, lower, title, clean,
or is not a string at all, the text-formatter handler returns the normal
error envelope — success false, empty result, non-empty error message — and
no exception escapes `process_request` (its value is a plain envelope, the
`except` clause having absorbed any raise).  The lowercasing is the
amendment: the code accepts case variants such as "UPPER", which the
counterexample below shows succeeding. -/
theorem claim_C9_invalid_format (kvs : List (String × Json))
    (h : alistGet kvs "format" = none
         ∨ (∃ f, alistGet kvs "format" = some (Json.str f)
              ∧ ¬ pyLowerStr f ∈ (["upper", "lower", "title", "clean"] : List String))
         ∨ (∃ v, alistGet kvs "format" = some v ∧ ∀ f, v ≠ Json.str f)) :
    ∃ e, tf_process_request (Json.obj kvs) = tf_errEnv e ∧ e ≠ "" := by
  obtain h1 | ⟨f, hf, hmem⟩ | ⟨v, hv, hnostr⟩ := h
  · refine ⟨"Missing \x27format\x27 field. Use \x27upper\x27, \x27lower\x27, \x27title\x27, or \x27clean\x27.",
      ?_, by decide⟩
    unfold tf_process_request tf_process_body
    simp [pyGet, h1, pyLower]
    rfl
  · by_cases hemp : pyLowerStr f = ""
    · refine ⟨"Missing \x27format\x27 field. Use \x27upper\x27, \x27lower\x27, \x27title\x27, or \x27clean\x27.",
        ?_, by decide⟩
      unfold tf_process_request tf_process_body
      simp [pyGet, hf, pyLower, hemp]
    · refine ⟨"Invalid format type \x27" ++ pyLowerStr f
          ++ "\x27. Use \x27upper\x27, \x27lower\x27, \x27title\x27, or \x27clean\x27.", ?_, ?_⟩
      · have hc : (["upper", "lower", "title", "clean"].contains (pyLowerStr f)) = false := by
          simpa using hmem
        unfold tf_process_request tf_process_body
        simp [pyGet, hf, pyLower, hemp, hc]
        rw [if_pos (by simpa using hmem)]
      · exact append3_ne_empty _ _ _ (by decide)
  · have hlow : pyLower v = .error ("\x27" ++ pyTypeName v
        ++ "\x27 object has no attribute \x27lower\x27") := by
      cases v with
      | str s => exact absurd rfl (hnostr s)
      | null => rfl
      | bool b => rfl
      | num n => rfl
      | arr xs => rfl
      | obj kvs2 => rfl
    refine ⟨"\x27" ++ pyTypeName v ++ "\x27 object has no attribute \x27lower\x27", ?_, ?_⟩
    · unfold tf_process_request tf_process_body
      simp [pyGet, hv, hlow]
    · exact append3_ne_empty _ _ _ (by decide)

/-- Witness for the amended C9: the unknown format "bold" draws the
validation envelope. -/
theorem claim_C9_invalid_format_witness :
    (alistGet [("format", Json.str "bold")] "format" = some (Json.str "bold")
     ∧ ¬ pyLowerStr "bold" ∈ (["upper", "lower", "title", "clean"] : List String))
    ∧ (∃ e, tf_process_request (Json.obj [("format", Json.str "bold")]) = tf_errEnv e
         ∧ e ≠ "") := by
  refine ⟨⟨rfl, by decide⟩, ?_⟩
  exact claim_C9_invalid_format [("format", Json.str "bold")]
    (Or.inr (Or.inl ⟨"bold", rfl, by decide⟩))

/-- C9 counterexample: the format field "UPPER" is not one of the four
literals upper, lower, title, clean, yet the handler accepts it (the code
lowercases the field first) and returns success — so the claim as stated,
which would require a validation error here, fails on the code. -/
theorem claim_C9_counterexample :
    tf_process_request (Json.obj [("text", Json.str "x"), ("format", Json.str "UPPER")])
      = Json.obj [("success", Json.bool true), ("result", Json.str "X"), ("error", Json.str "")]
    ∧ ¬ "UPPER" ∈ (["upper", "lower", "title", "clean"] : List String) :=
  ⟨rfl, by decide⟩
